import Mathlib

/-!
Shallow embedding of the generation orchestration pipeline of the
Multilingual Text-to-Video repository (file `generate-video-flow`,
given as src/unnamed/part_000).

The effectful pieces (the Veo submission, the operation status endpoint,
the asset download, the speech endpoint, the external wav writer) are
modelled as oracles packaged in environment structures; the control flow
of the source file is translated statement by statement.  JavaScript
string truthiness (the empty string is falsy) is modelled explicitly.
-/

namespace PressVideo

/-- Input accepted by the flow (GenerateVideoInputSchema).  prompt is
required; narration and style are optional; aspectRatio and language carry
schema defaults and are present after parsing. -/
structure GenerateVideoInput where
  prompt : String
  narration : Option String
  style : Option String
  aspectRatio : String
  language : String
deriving DecidableEq

/-- Output of the flow (GenerateVideoOutputSchema). -/
structure GenerateVideoOutput where
  videoUrl : String
  audioUrl : Option String
deriving DecidableEq

/-- JavaScript logical-or on an optional string: undefined and the empty
string are falsy, so both select the default. -/
def jsOrOpt (s : Option String) (d : String) : String :=
  match s with
  | none => d
  | some t => if t = "" then d else t

/-- JavaScript logical-or on a string: the empty string is falsy. -/
def jsOrStr (s d : String) : String :=
  if s = "" then d else s

/-- Voice selection of textToSpeechFlow, lines 61-66: default Algenib,
hi maps to the Hindi neural voice, te to the Telugu voice. -/
def voiceFor (language : String) : String :=
  if language = "hi" then "hi-IN-Neural2-A"
  else if language = "te" then "te-IN-Wavenet-A"
  else "Algenib"

/-- url.substring(url.indexOf(",") + 1): the text after the first comma;
when no comma occurs, indexOf gives -1 and the whole string is returned. -/
def afterFirstComma (s : String) : String :=
  match s.splitOn "," with
  | [] => s
  | [_] => s
  | _ :: rest => String.intercalate "," rest

/-- The base64 alphabet. -/
def base64Chars : List Char :=
  "ABCDEFGHIJKLMNOPQRSTUVWXYZabcdefghijklmnopqrstuvwxyz0123456789+/".toList

/-- The base64 digit for a 6-bit value. -/
def base64Char (n : Nat) : Char :=
  base64Chars.getD n '?'

/-- Encode a byte list into base64 characters, three bytes a group, with
padding on the final partial group. -/
def base64EncodeGroups : List Nat → List Char
  | [] => []
  | [b0] =>
      [base64Char (b0 / 4), base64Char (b0 % 4 * 16), '=', '=']
  | [b0, b1] =>
      [base64Char (b0 / 4), base64Char (b0 % 4 * 16 + b1 / 16),
       base64Char (b1 % 16 * 4), '=']
  | b0 :: b1 :: b2 :: rest =>
      base64Char (b0 / 4) :: base64Char (b0 % 4 * 16 + b1 / 16) ::
      base64Char (b1 % 16 * 4 + b2 / 64) :: base64Char (b2 % 64) ::
      base64EncodeGroups rest

/-- Buffer.toString with base64 encoding. -/
def base64Encode (bs : List Nat) : String :=
  String.mk (base64EncodeGroups bs)

/-- The 6-bit value of a base64 digit; padding and foreign characters
give none. -/
def base64Val (c : Char) : Option Nat :=
  let i := base64Chars.findIdx (fun d => d = c)
  if i < base64Chars.length then some i else none

/-- Decode a list of 6-bit values into bytes, four values a group, with
node tolerance for a trailing partial group. -/
def base64DecodeVals : List Nat → List Nat
  | v0 :: v1 :: v2 :: v3 :: rest =>
      (v0 * 4 + v1 / 16) :: (v1 % 16 * 16 + v2 / 4) :: (v2 % 4 * 64 + v3) ::
      base64DecodeVals rest
  | [v0, v1] => [v0 * 4 + v1 / 16]
  | [v0, v1, v2] => [v0 * 4 + v1 / 16, v1 % 16 * 16 + v2 / 4]
  | _ => []

/-- Buffer.from with base64 decoding: node ignores characters outside the
alphabet (padding included) and decodes the remaining digits. -/
def base64Decode (s : String) : List Nat :=
  base64DecodeVals (s.toList.filterMap base64Val)

/-- A 16-bit little-endian field of a container header. -/
def le16 (n : Nat) : List Nat :=
  [n % 256, n / 256 % 256]

/-- A 32-bit little-endian field of a container header. -/
def le32 (n : Nat) : List Nat :=
  [n % 256, n / 256 % 256, n / 65536 % 256, n / 16777216 % 256]

/-- The bytes of an ASCII tag such as RIFF or WAVE. -/
def asciiBytes (s : String) : List Nat :=
  s.toList.map Char.toNat

/-- Modelled from the spec: the wav package Writer used by toWav is not
part of the repository.  Per the spec the encoder writes a standard
header describing channel count, sample rate and bit depth ahead of the
raw sample bytes; this is the standard RIFF/WAVE PCM header the wav
Writer emits. -/
def wavHeader (channels rate bitDepth dataLen : Nat) : List Nat :=
  asciiBytes "RIFF" ++ le32 (36 + dataLen) ++ asciiBytes "WAVE" ++
  asciiBytes "fmt " ++ le32 16 ++ le16 1 ++ le16 channels ++ le32 rate ++
  le32 (rate * channels * (bitDepth / 8)) ++ le16 (channels * (bitDepth / 8)) ++
  le16 bitDepth ++ asciiBytes "data" ++ le32 dataLen

/-- Modelled from the spec: toWav of the source (lines 30-51) drives the
external wav Writer with the given channels, rate and bitDepth of
sampleWidth times eight, concatenates every emitted chunk in order once
the writer signals completion, and base64-encodes the full container.
The source defaults are channels 1, rate 24000, sampleWidth 2. -/
def toWav (pcmData : List Nat) (channels rate sampleWidth : Nat) : String :=
  base64Encode (wavHeader channels rate (sampleWidth * 8) pcmData.length ++ pcmData)

/-- The error field of a long-running operation. -/
structure OpError where
  message : String
deriving DecidableEq

/-- A media reference inside an output content part; url and contentType
are both optional in the provider schema. -/
structure MediaRef where
  url : Option String
  contentType : Option String
deriving DecidableEq

/-- One content part of the operation output message. -/
structure ContentPart where
  text : Option String
  media : Option MediaRef
deriving DecidableEq

/-- The message of the operation output. -/
structure OpMessage where
  content : List ContentPart
deriving DecidableEq

/-- The output of a finished operation; the message is optional. -/
structure OpOutput where
  message : Option OpMessage
deriving DecidableEq

/-- A long-running operation handle: done flag, optional error field,
optional output. -/
structure Operation where
  done : Bool
  error : Option OpError
  output : Option OpOutput
deriving DecidableEq

/-- The response of the asset download endpoint: HTTP ok flag, presence
of a body, status text, and the body bytes. -/
structure FetchResponse where
  ok : Bool
  hasBody : Bool
  statusText : String
  bytes : List Nat
deriving DecidableEq

/-- The response of the speech endpoint: an optional media payload whose
url is a data URI. -/
structure TtsResponse where
  media : Option MediaRef
deriving DecidableEq

/-- Oracles for the effectful steps of the audio path.  generate is the
speech endpoint, a function of voice name and prompt; it may throw, with
the thrown message as the error.  toWavResult is the settled outcome of
awaiting the external wav writer on the decoded audio bytes: it may
reject, with the rejection message as the error. -/
structure TtsEnv where
  generate : String → String → Except String TtsResponse
  toWavResult : List Nat → Except String String

/-- Oracles for the effectful steps of the video path.  submit is the
Veo generation endpoint, a function of the composed prompt and the aspect
ratio; a thrown submission is the error case and a response whose
operation field is missing is ok none.  check is the operation status
endpoint, scripted by the index of the call; a throw is the error case.
fetch is the download endpoint; a network-level rejection is the error
case.  apiKey is the credential read from the process environment. -/
structure VideoEnv where
  submit : String → String → Except String (Option Operation)
  check : Nat → Except String Operation
  fetch : String → Except String FetchResponse
  apiKey : String

/-- Observable events of the video path. -/
inductive VEvent where
  | sleep (ms : Nat)
  | statusCheck
  | submitCall
  | downloadCall
deriving DecidableEq

/-- The number of status checks in an event trace. -/
def countChecks (evs : List VEvent) : Nat :=
  (evs.filter (fun e => match e with | VEvent.statusCheck => true | _ => false)).length

/-- The poll loop of generateVideoFlow, lines 133-141: while the
operation is not done, sleep five seconds, then refresh it through the
status endpoint; a throw from a status check is wrapped with the message
of line 139 and raised.  fuel bounds the number of checks so the
unbounded source loop is representable; none means the fuel ran out
before the operation reached a terminal state. -/
def pollLoop (check : Nat → Except String Operation) (op : Operation) (i fuel : Nat) :
    Option (Except String Operation × List VEvent) :=
  if op.done then some (Except.ok op, [])
  else
    match fuel with
    | 0 => none
    | Nat.succ fuel1 =>
      match check i with
      | Except.error e =>
          some (Except.error ("Failed to check video generation status: " ++ e),
            [VEvent.sleep 5000, VEvent.statusCheck])
      | Except.ok op1 =>
          match pollLoop check op1 (i + 1) fuel1 with
          | none => none
          | some (r, evs) =>
              some (r, VEvent.sleep 5000 :: VEvent.statusCheck :: evs)

/-- The composed prompt of line 110: the input prompt followed by the
style clause, the style defaulting through JavaScript logical-or. -/
def composePrompt (input : GenerateVideoInput) : String :=
  input.prompt ++ ", in the style of " ++ jsOrOpt input.style "a cinematic film"

/-- operation.output?.message?.content.find of line 148: the first output
content part carrying a media reference; none when the output, its
message, or such a part is missing. -/
def findMediaPart (op : Operation) : Option ContentPart :=
  match op.output with
  | none => none
  | some o =>
    match o.message with
    | none => none
    | some m => m.content.find? (fun p => p.media.isSome)

/-- The body of the try block of textToSpeechFlow, lines 60-88: select
the voice, call the speech endpoint, return none when no media url is
present, otherwise decode the payload after the first comma of the data
URI, hand it to the wav writer, and wrap the result in a data URI.
An error is an exception escaping the block. -/
def textToSpeechBody (env : TtsEnv) (prompt language : String) :
    Except String (Option String) :=
  match env.generate (voiceFor language) prompt with
  | Except.error e => Except.error e
  | Except.ok resp =>
    match resp.media with
    | none => Except.ok none
    | some m =>
      match m.url with
      | none => Except.ok none
      | some url =>
        if url = "" then Except.ok none
        else
          match env.toWavResult (base64Decode (afterFirstComma url)) with
          | Except.error e => Except.error e
          | Except.ok wavBase64 =>
              Except.ok (some ("data:audio/wav;base64," ++ wavBase64))

/-- textToSpeechFlow, lines 53-94: the try body with the catch of lines
89-92 that converts any exception into an absent result.  The second
component counts calls of the speech endpoint; the flow performs exactly
one, as its first step. -/
def textToSpeechFlow (env : TtsEnv) (prompt language : String) :
    Except String (Option String) × Nat :=
  (match textToSpeechBody env prompt language with
   | Except.ok v => Except.ok v
   | Except.error _ => Except.ok none, 1)

/-- audioGenPromise, lines 167-172: when narration is falsy (absent or
the empty string) resolve immediately to undefined without any call;
otherwise run textToSpeechFlow with the narration and the language. -/
def audioGenTask (env : TtsEnv) (input : GenerateVideoInput) :
    Except String (Option String) × Nat :=
  match input.narration with
  | none => (Except.ok none, 0)
  | some n =>
    if n = "" then (Except.ok none, 0)
    else textToSpeechFlow env n (jsOrStr input.language "en")

/-- videoGenPromise, lines 107-165: compose the prompt, submit, wrap a
submission throw with the message of line 126, reject on an absent
operation handle, poll to a terminal state, reject on an operation-level
error with the message of line 145, locate the media part and reject
with the message of line 150 when it or its url is missing, download,
reject on a non-ok response or a missing body with the message of line
157, and otherwise return the data URI of the base64-encoded bytes.
none means the poll fuel ran out. -/
def videoGenTask (venv : VideoEnv) (input : GenerateVideoInput) (fuel : Nat) :
    Option (Except String String × List VEvent) :=
  match venv.submit (composePrompt input) input.aspectRatio with
  | Except.error e =>
      some (Except.error ("Failed to initiate video generation: " ++ e),
        [VEvent.submitCall])
  | Except.ok none =>
      some (Except.error "Expected the model to return an operation for video generation.",
        [VEvent.submitCall])
  | Except.ok (some op0) =>
    match pollLoop venv.check op0 0 fuel with
    | none => none
    | some (Except.error e, evs) => some (Except.error e, VEvent.submitCall :: evs)
    | some (Except.ok op, evs) =>
      match op.error with
      | some err =>
          some (Except.error ("Video generation failed: " ++ err.message),
            VEvent.submitCall :: evs)
      | none =>
        match findMediaPart op with
        | none =>
            some (Except.error "Failed to find the generated video in the operation output.",
              VEvent.submitCall :: evs)
        | some p =>
          match p.media with
          | none =>
              some (Except.error "Failed to find the generated video in the operation output.",
                VEvent.submitCall :: evs)
          | some mr =>
            match mr.url with
            | none =>
                some (Except.error "Failed to find the generated video in the operation output.",
                  VEvent.submitCall :: evs)
            | some u =>
              if u = "" then
                some (Except.error "Failed to find the generated video in the operation output.",
                  VEvent.submitCall :: evs)
              else
                match venv.fetch (u ++ "&key=" ++ venv.apiKey) with
                | Except.error e =>
                    some (Except.error e,
                      VEvent.submitCall :: evs ++ [VEvent.downloadCall])
                | Except.ok resp =>
                  if resp.ok && resp.hasBody then
                    some (Except.ok ("data:" ++ jsOrOpt mr.contentType "video/mp4" ++
                        ";base64," ++ base64Encode resp.bytes),
                      VEvent.submitCall :: evs ++ [VEvent.downloadCall])
                  else
                    some (Except.error ("Failed to download video from " ++ u ++
                        ". Status: " ++ resp.statusText),
                      VEvent.submitCall :: evs ++ [VEvent.downloadCall])

/-- The join step of generateVideoFlow over the two settled outcomes,
lines 176-192: a rejected video task is re-raised wrapped with the
message of line 178; a fulfilled video task gives a success whose
audioUrl is the fulfilled audio value and is left undefined when the
audio task was rejected. -/
def settleJoin (videoResult : Except String String)
    (audioResult : Except String (Option String)) :
    Except String GenerateVideoOutput :=
  match videoResult with
  | Except.error e => Except.error ("Video generation failed: " ++ e)
  | Except.ok v =>
      Except.ok
        { videoUrl := v
          audioUrl :=
            match audioResult with
            | Except.ok a => a
            | Except.error _ => none }

/-- generateVideoFlow, lines 100-194: run the video task and the audio
task, wait for both to settle, and join.  The trace of video events and
the count of speech endpoint calls are returned alongside; none means
the poll fuel ran out. -/
def generateVideoFlow (venv : VideoEnv) (tenv : TtsEnv)
    (input : GenerateVideoInput) (fuel : Nat) :
    Option (Except String GenerateVideoOutput × List VEvent × Nat) :=
  match videoGenTask venv input fuel with
  | none => none
  | some (videoResult, evs) =>
      let audio := audioGenTask tenv input
      some (settleJoin videoResult audio.1, evs, audio.2)

/-- The exported entry point, lines 96-98. -/
def generateVideo (venv : VideoEnv) (tenv : TtsEnv)
    (input : GenerateVideoInput) (fuel : Nat) :
    Option (Except String GenerateVideoOutput × List VEvent × Nat) :=
  generateVideoFlow venv tenv input fuel

/-- One string occurs inside another. -/
def hasSubstr (s sub : String) : Prop :=
  ∃ p q, s = p ++ sub ++ q

/-! Concrete fixtures for witnesses. -/

/-- A request with no narration. -/
def reqSunset : GenerateVideoInput :=
  { prompt := "a sunset", narration := none, style := none,
    aspectRatio := "16:9", language := "en" }

/-- A request with present but empty narration. -/
def reqEmptyNarration : GenerateVideoInput :=
  { prompt := "a city", narration := some "", style := none,
    aspectRatio := "16:9", language := "hi" }

/-- A request with a nonempty style. -/
def reqCityNoir : GenerateVideoInput :=
  { prompt := "a city", narration := none, style := some "noir",
    aspectRatio := "16:9", language := "en" }

/-- A not-yet-terminal operation. -/
def opPending : Operation :=
  { done := false, error := none, output := none }

/-- A terminal operation with no error and no output. -/
def opDoneBare : Operation :=
  { done := true, error := none, output := none }

/-- A terminal operation carrying the quota error. -/
def opQuota : Operation :=
  { done := true, error := some { message := "quota exceeded" }, output := none }

/-- A terminal successful operation with one media part. -/
def opMediaOk : Operation :=
  { done := true, error := none,
    output := some { message := some { content :=
      [ { text := none,
          media := some { url := some "http://v", contentType := none } } ] } } }

/-- A video environment whose submission immediately returns the quota
error operation. -/
def venvQuota : VideoEnv :=
  { submit := fun _ _ => Except.ok (some opQuota),
    check := fun _ => Except.ok opQuota,
    fetch := fun _ => Except.error "unreached",
    apiKey := "k" }

/-- A video environment whose submission returns a terminal operation
with no error and no output. -/
def venvBare : VideoEnv :=
  { submit := fun _ _ => Except.ok (some opDoneBare),
    check := fun _ => Except.ok opDoneBare,
    fetch := fun _ => Except.error "unreached",
    apiKey := "k" }

/-- A video environment in which submission, polling and download all
succeed at once. -/
def venvOk : VideoEnv :=
  { submit := fun _ _ => Except.ok (some opMediaOk),
    check := fun _ => Except.ok opMediaOk,
    fetch := fun _ => Except.ok { ok := true, hasBody := true, statusText := "OK", bytes := [] },
    apiKey := "k" }

/-- A speech environment returning no media payload. -/
def tenvDefault : TtsEnv :=
  { generate := fun _ _ => Except.ok { media := none },
    toWavResult := fun _ => Except.ok "V0FW" }

/-! Helper lemmas. -/

/-- A scripted status endpoint that answers not-done for the first m
calls after index i and done at call i + m drives the poll loop to
termination with exactly m + 1 checks, each preceded by the fixed
five-second sleep, for any extra fuel j. -/
theorem pollLoop_script (check : Nat → Except String Operation) (j : Nat) :
    ∀ (m i : Nat) (op0 : Operation), op0.done = false →
    (∀ k, k < m → ∃ op, check (i + k) = Except.ok op ∧ op.done = false) →
    (∃ opF, check (i + m) = Except.ok opF ∧ opF.done = true) →
    ∃ opF, opF.done = true ∧
      pollLoop check op0 i (m + 1 + j) =
        some (Except.ok opF,
          (List.replicate (m + 1) [VEvent.sleep 5000, VEvent.statusCheck]).flatten) := by
  intro m
  induction m with
  | zero =>
    intro i op0 h0 _ hdone
    obtain ⟨opF, hck, hdF⟩ := hdone
    rw [Nat.add_zero] at hck
    refine ⟨opF, hdF, ?_⟩
    rw [show 0 + 1 + j = j + 1 by omega]
    unfold pollLoop
    simp only [h0, Bool.false_eq_true, if_false, hck]
    unfold pollLoop
    simp [hdF]
  | succ m ih =>
    intro i op0 h0 hfalse hdone
    obtain ⟨op1, hck1, hd1⟩ := hfalse 0 (Nat.succ_pos m)
    rw [Nat.add_zero] at hck1
    obtain ⟨opF, hdF, hrec⟩ := ih (i + 1) op1 hd1
      (fun k hk => by
        obtain ⟨op2, hck2, hd2⟩ := hfalse (k + 1) (by omega)
        exact ⟨op2, by rw [show i + 1 + k = i + (k + 1) by omega]; exact hck2, hd2⟩)
      (by
        obtain ⟨op2, hck2, hd2⟩ := hdone
        exact ⟨op2, by rw [show i + 1 + m = i + (m + 1) by omega]; exact hck2, hd2⟩)
    refine ⟨opF, hdF, ?_⟩
    rw [show m + 1 + 1 + j = (m + 1 + j) + 1 by omega]
    unfold pollLoop
    simp only [h0, Bool.false_eq_true, if_false, hck1]
    rw [hrec]
    simp [List.replicate_succ]

/-- The number of status checks in m sleep-then-check pairs is m. -/
theorem countChecks_replicate (m : Nat) :
    countChecks ((List.replicate m [VEvent.sleep 5000, VEvent.statusCheck]).flatten) = m := by
  induction m with
  | zero => rfl
  | succ k ih =>
    simp only [List.replicate_succ, List.flatten_cons, countChecks,
      List.filter_append, List.length_append] at *
    simp [List.filter, ih]
    omega

/-! Claim theorems. -/

/-- Claim C5: for every natural number N, given a submission that
returned a not-done operation and a status endpoint that answers
done equal false N times and then done equal true, the polling loop of
generateVideoFlow performs exactly N + 1 status checks, each preceded by
the fixed five-second sleep, and then terminates; j is any surplus of
fuel, showing the loop stops on the terminal state and not on fuel. -/
theorem poll_loop_termination_c5
    (check : Nat → Except String Operation) (N j : Nat) (op0 : Operation)
    (h0 : op0.done = false)
    (hfalse : ∀ k, k < N → ∃ op, check k = Except.ok op ∧ op.done = false)
    (htrue : ∃ opF, check N = Except.ok opF ∧ opF.done = true) :
    ∃ opF trace, opF.done = true ∧
      pollLoop check op0 0 (N + 1 + j) = some (Except.ok opF, trace) ∧
      trace = (List.replicate (N + 1) [VEvent.sleep 5000, VEvent.statusCheck]).flatten ∧
      countChecks trace = N + 1 := by
  obtain ⟨opF, hdF, hres⟩ := pollLoop_script check j N 0 op0 h0
    (fun k hk => by simpa using hfalse k hk)
    (by simpa using htrue)
  exact ⟨opF, _, hdF, hres, rfl, countChecks_replicate (N + 1)⟩

/-- Witness for C5 at N equal 1: two scripted not-done answers precede
the terminal one, and the loop performs exactly two checks. -/
theorem poll_loop_termination_c5_witness :
    ∃ opF trace, opF.done = true ∧
      pollLoop (fun i => Except.ok (if i = 0 then opPending else opDoneBare))
        opPending 0 (1 + 1 + 0) = some (Except.ok opF, trace) ∧
      trace = (List.replicate (1 + 1) [VEvent.sleep 5000, VEvent.statusCheck]).flatten ∧
      countChecks trace = 1 + 1 :=
  poll_loop_termination_c5 _ 1 0 opPending rfl
    (fun k hk => by
      have hk0 : k = 0 := by omega
      subst hk0
      exact ⟨opPending, rfl, rfl⟩)
    ⟨opDoneBare, rfl, rfl⟩

/-- Claim C7 as stated is false on the code: with style absent the
default substituted is the string a cinematic film, not cinematic film,
so the composed prompt differs from the one the claim names. -/
theorem compose_prompt_c7_counterexample :
    composePrompt reqSunset ≠ "a sunset, in the style of cinematic film" := by
  decide

/-- Claim C7 amended: for every prompt and nonempty styleDescription the
composed prompt is the prompt, the fixed infix clause, then the style;
when styleDescription is absent or empty the default a cinematic film is
substituted, so the composed prompt ends in the style of a cinematic
film. -/
theorem compose_prompt_c7_amended :
    (∀ (input : GenerateVideoInput) (s : String), input.style = some s → s ≠ "" →
      composePrompt input = input.prompt ++ ", in the style of " ++ s) ∧
    (∀ input : GenerateVideoInput, input.style = none →
      composePrompt input = input.prompt ++ ", in the style of a cinematic film") ∧
    (∀ input : GenerateVideoInput, input.style = some "" →
      composePrompt input = input.prompt ++ ", in the style of a cinematic film") := by
  refine ⟨?_, ?_, ?_⟩
  · intro input s hs hne
    unfold composePrompt jsOrOpt
    rw [hs]
    simp [hne]
  · intro input hs
    unfold composePrompt jsOrOpt
    rw [hs, String.append_assoc]
    congr 1
  · intro input hs
    unfold composePrompt jsOrOpt
    rw [hs]
    simp only [if_pos]
    rw [String.append_assoc]
    congr 1

/-- Witness for the amended C7 at a concrete nonempty style and at the
absent style. -/
theorem compose_prompt_c7_amended_witness :
    composePrompt reqCityNoir = "a city" ++ ", in the style of " ++ "noir" ∧
    composePrompt reqSunset = "a sunset" ++ ", in the style of a cinematic film" :=
  ⟨compose_prompt_c7_amended.1 reqCityNoir "noir" rfl (by decide),
   compose_prompt_c7_amended.2.1 reqSunset rfl⟩

/-- Claim C8: voice selection is the pure function voiceFor of the
language code alone: hi gives the Hindi neural voice, te the Telugu
voice, en and every other code the default Algenib. -/
theorem voice_selection_c8 :
    voiceFor "hi" = "hi-IN-Neural2-A" ∧
    voiceFor "te" = "te-IN-Wavenet-A" ∧
    voiceFor "en" = "Algenib" ∧
    ∀ l : String, l ≠ "hi" → l ≠ "te" → voiceFor l = "Algenib" := by
  refine ⟨rfl, rfl, rfl, ?_⟩
  intro l h1 h2
  unfold voiceFor
  rw [if_neg h1, if_neg h2]

/-- Witness for C8 at the unmapped code fr. -/
theorem voice_selection_c8_witness :
    voiceFor "fr" = "Algenib" :=
  voice_selection_c8.2.2.2 "fr" (by decide) (by decide)

/-- Claim C9: the encoder is deterministic: two invocations of toWav on
identical PCM bytes, channels, rate and sample width give identical
base64 output. -/
theorem towav_deterministic_c9
    (p1 p2 : List Nat) (c1 c2 r1 r2 w1 w2 : Nat)
    (hp : p1 = p2) (hc : c1 = c2) (hr : r1 = r2) (hw : w1 = w2) :
    toWav p1 c1 r1 w1 = toWav p2 c2 r2 w2 := by
  rw [hp, hc, hr, hw]

/-- Witness for C9 at a concrete one-sample input with the source
default parameters. -/
theorem towav_deterministic_c9_witness :
    toWav [7] 1 24000 2 = toWav [7] 1 24000 2 :=
  towav_deterministic_c9 [7] [7] 1 1 24000 24000 2 2 rfl rfl rfl rfl

/-- Claim C3: for every input text, language code and behavior of the
speech endpoint and of the wav writer, textToSpeechFlow settles as a
success carrying an optional base64 audio string; the catch of its body
converts every exception at any step into an absent result, so it never
raises to its caller. -/
theorem tts_never_raises_c3 (env : TtsEnv) (prompt language : String) :
    ∃ o, (textToSpeechFlow env prompt language).1 = Except.ok o := by
  unfold textToSpeechFlow
  cases h : textToSpeechBody env prompt language with
  | ok v => exact ⟨v, by simp [h]⟩
  | error e => exact ⟨none, by simp [h]⟩

/-- Claim C4: when narration is absent the audio task resolves
immediately to an absent value with zero speech endpoint calls, and any
successful result of the whole flow then carries an absent audioUrl with
the speech endpoint never invoked. -/
theorem narration_absent_c4 :
    (∀ (tenv : TtsEnv) (input : GenerateVideoInput),
       input.narration = none →
       audioGenTask tenv input = (Except.ok none, 0)) ∧
    (∀ (venv : VideoEnv) (tenv : TtsEnv) (input : GenerateVideoInput)
       (fuel : Nat) (out : GenerateVideoOutput) (evs : List VEvent) (n : Nat),
       input.narration = none →
       generateVideoFlow venv tenv input fuel = some (Except.ok out, evs, n) →
       out.audioUrl = none ∧ n = 0) := by
  have haud : ∀ (tenv : TtsEnv) (input : GenerateVideoInput),
      input.narration = none → audioGenTask tenv input = (Except.ok none, 0) := by
    intro tenv input h
    unfold audioGenTask
    rw [h]
  refine ⟨haud, ?_⟩
  intro venv tenv input fuel out evs n hnar hflow
  obtain ⟨vu, au⟩ := out
  unfold generateVideoFlow at hflow
  cases htask : videoGenTask venv input fuel with
  | none => rw [htask] at hflow; cases hflow
  | some pr =>
    obtain ⟨r, evs1⟩ := pr
    rw [htask, haud tenv input hnar] at hflow
    cases r with
    | error e => simp [settleJoin] at hflow
    | ok v =>
      simp only [settleJoin, Option.some.injEq, Prod.mk.injEq,
        Except.ok.injEq, GenerateVideoOutput.mk.injEq] at hflow
      exact ⟨hflow.1.2.symm, hflow.2.2.symm⟩

/-- Witness for C4: a request with no narration against an environment
whose video path succeeds at once. -/
theorem narration_absent_c4_witness :
    audioGenTask tenvDefault reqSunset = (Except.ok none, 0) ∧
    ((GenerateVideoOutput.mk "data:video/mp4;base64," none).audioUrl = none ∧
      (0 : Nat) = 0) :=
  ⟨narration_absent_c4.1 tenvDefault reqSunset rfl,
   narration_absent_c4.2 venvOk tenvDefault reqSunset 0
     (GenerateVideoOutput.mk "data:video/mp4;base64," none)
     [VEvent.submitCall, VEvent.downloadCall] 0 rfl rfl⟩

/-- Claim C10: when narration is present but empty, JavaScript
truthiness makes the audio task resolve immediately to an absent value
with zero speech endpoint calls, exactly as when narration is absent,
and any successful result of the whole flow then carries an absent
audioUrl. -/
theorem narration_empty_c10 :
    (∀ (tenv : TtsEnv) (input : GenerateVideoInput),
       input.narration = some "" →
       audioGenTask tenv input = (Except.ok none, 0)) ∧
    (∀ (venv : VideoEnv) (tenv : TtsEnv) (input : GenerateVideoInput)
       (fuel : Nat) (out : GenerateVideoOutput) (evs : List VEvent) (n : Nat),
       input.narration = some "" →
       generateVideoFlow venv tenv input fuel = some (Except.ok out, evs, n) →
       out.audioUrl = none ∧ n = 0) := by
  have haud : ∀ (tenv : TtsEnv) (input : GenerateVideoInput),
      input.narration = some "" → audioGenTask tenv input = (Except.ok none, 0) := by
    intro tenv input h
    unfold audioGenTask
    rw [h]
    simp
  refine ⟨haud, ?_⟩
  intro venv tenv input fuel out evs n hnar hflow
  obtain ⟨vu, au⟩ := out
  unfold generateVideoFlow at hflow
  cases htask : videoGenTask venv input fuel with
  | none => rw [htask] at hflow; cases hflow
  | some pr =>
    obtain ⟨r, evs1⟩ := pr
    rw [htask, haud tenv input hnar] at hflow
    cases r with
    | error e => simp [settleJoin] at hflow
    | ok v =>
      simp only [settleJoin, Option.some.injEq, Prod.mk.injEq,
        Except.ok.injEq, GenerateVideoOutput.mk.injEq] at hflow
      exact ⟨hflow.1.2.symm, hflow.2.2.symm⟩

/-- Witness for C10: a request with empty narration against an
environment whose video path succeeds at once. -/
theorem narration_empty_c10_witness :
    audioGenTask tenvDefault reqEmptyNarration = (Except.ok none, 0) ∧
    ((GenerateVideoOutput.mk "data:video/mp4;base64," none).audioUrl = none ∧
      (0 : Nat) = 0) :=
  ⟨narration_empty_c10.1 tenvDefault reqEmptyNarration rfl,
   narration_empty_c10.2 venvOk tenvDefault reqEmptyNarration 0
     (GenerateVideoOutput.mk "data:video/mp4;base64," none)
     [VEvent.submitCall, VEvent.downloadCall] 0 rfl rfl⟩

/-- Claim C1: whenever the video task settles as a failure with message
e, the flow rejects with a single error whose message contains e, and
the outcome of the audio task (any two speech environments) never
changes the rejection; in particular, when the terminal operation
carries an error field with message m, the rejection message contains
m, for instance quota exceeded. -/
theorem video_failure_rejects_c1 :
    (∀ (venv : VideoEnv) (tenv tenv2 : TtsEnv) (input : GenerateVideoInput)
       (fuel : Nat) (e : String) (evs : List VEvent),
       videoGenTask venv input fuel = some (Except.error e, evs) →
       ∃ msg, (generateVideoFlow venv tenv input fuel).map Prod.fst =
           some (Except.error msg) ∧
         hasSubstr msg e ∧
         (generateVideoFlow venv tenv2 input fuel).map Prod.fst =
           some (Except.error msg)) ∧
    (∀ (venv : VideoEnv) (tenv : TtsEnv) (input : GenerateVideoInput)
       (fuel : Nat) (op0 op : Operation) (evs : List VEvent) (m : String),
       venv.submit (composePrompt input) input.aspectRatio = Except.ok (some op0) →
       pollLoop venv.check op0 0 fuel = some (Except.ok op, evs) →
       op.error = some { message := m } →
       ∃ msg, (generateVideoFlow venv tenv input fuel).map Prod.fst =
           some (Except.error msg) ∧ hasSubstr msg m) := by
  have key : ∀ (venv : VideoEnv) (tenv : TtsEnv) (input : GenerateVideoInput)
      (fuel : Nat) (e : String) (evs : List VEvent),
      videoGenTask venv input fuel = some (Except.error e, evs) →
      (generateVideoFlow venv tenv input fuel).map Prod.fst =
        some (Except.error ("Video generation failed: " ++ e)) := by
    intro venv tenv input fuel e evs h
    simp [generateVideoFlow, h, settleJoin]
  constructor
  · intro venv tenv tenv2 input fuel e evs h
    refine ⟨"Video generation failed: " ++ e, key venv tenv input fuel e evs h,
      ?_, key venv tenv2 input fuel e evs h⟩
    exact ⟨"Video generation failed: ", "", by rw [String.append_empty]⟩
  · intro venv tenv input fuel op0 op evs m hsub hpoll herr
    have htask : videoGenTask venv input fuel =
        some (Except.error ("Video generation failed: " ++ m),
          VEvent.submitCall :: evs) := by
      simp only [videoGenTask, hsub, hpoll, herr]
    refine ⟨"Video generation failed: " ++ ("Video generation failed: " ++ m),
      key venv tenv input fuel _ _ htask, ?_⟩
    refine ⟨"Video generation failed: " ++ "Video generation failed: ", "", ?_⟩
    rw [String.append_empty, String.append_assoc]

/-- Witness for C1: an environment whose operation terminates with the
error message quota exceeded gives a rejection containing it. -/
theorem video_failure_rejects_c1_witness :
    ∃ msg, (generateVideoFlow venvQuota tenvDefault reqSunset 0).map Prod.fst =
        some (Except.error msg) ∧ hasSubstr msg "quota exceeded" :=
  video_failure_rejects_c1.2 venvQuota tenvDefault reqSunset 0 opQuota opQuota []
    "quota exceeded" rfl rfl rfl

/-- Claim C2: the join of the settled outcomes maps a fulfilled video
task and a rejected audio task to a success whose videoUrl is the video
value and whose audioUrl is absent, so an audio failure never surfaces
as a rejection; and the flow result is exactly this join of the two
settled tasks. -/
theorem audio_failure_nonfatal_c2 :
    (∀ v e : String,
       settleJoin (Except.ok v) (Except.error e) =
         Except.ok { videoUrl := v, audioUrl := none }) ∧
    (∀ (venv : VideoEnv) (tenv : TtsEnv) (input : GenerateVideoInput)
       (fuel : Nat) (r : Except String String) (evs : List VEvent),
       videoGenTask venv input fuel = some (r, evs) →
       (generateVideoFlow venv tenv input fuel).map Prod.fst =
         some (settleJoin r (audioGenTask tenv input).1)) := by
  constructor
  · intro v e
    rfl
  · intro venv tenv input fuel r evs h
    simp [generateVideoFlow, h]

/-- Witness for C2: the join at a concrete fulfilled video value and
rejected audio reason, and the flow against the all-success video
environment equals the join of its settled tasks. -/
theorem audio_failure_nonfatal_c2_witness :
    settleJoin (Except.ok "v") (Except.error "boom") =
      Except.ok { videoUrl := "v", audioUrl := none } ∧
    (generateVideoFlow venvOk tenvDefault reqSunset 0).map Prod.fst =
      some (settleJoin (Except.ok "data:video/mp4;base64,")
        (audioGenTask tenvDefault reqSunset).1) :=
  ⟨audio_failure_nonfatal_c2.1 "v" "boom",
   audio_failure_nonfatal_c2.2 venvOk tenvDefault reqSunset 0
     (Except.ok "data:video/mp4;base64,") [VEvent.submitCall, VEvent.downloadCall] rfl⟩

/-- Claim C6: when the terminal operation carries no error and no output
content part carries a media reference, the output, its message or its
content list possibly being absent, the orchestrator fails with exactly
the protocol-violation message of line 150 and no other outcome. -/
theorem missing_media_protocol_error_c6 :
    (∀ op : Operation, op.output = none → findMediaPart op = none) ∧
    (∀ (op : Operation) (o : OpOutput), op.output = some o → o.message = none →
       findMediaPart op = none) ∧
    (∀ (op : Operation) (o : OpOutput) (msg : OpMessage),
       op.output = some o → o.message = some msg →
       (∀ p ∈ msg.content, p.media = none) → findMediaPart op = none) ∧
    (∀ (venv : VideoEnv) (input : GenerateVideoInput) (fuel : Nat)
       (op0 op : Operation) (evs : List VEvent),
       venv.submit (composePrompt input) input.aspectRatio = Except.ok (some op0) →
       pollLoop venv.check op0 0 fuel = some (Except.ok op, evs) →
       op.error = none → findMediaPart op = none →
       videoGenTask venv input fuel =
         some (Except.error "Failed to find the generated video in the operation output.",
           VEvent.submitCall :: evs)) := by
  refine ⟨?_, ?_, ?_, ?_⟩
  · intro op h
    unfold findMediaPart
    rw [h]
  · intro op o h1 h2
    simp only [findMediaPart, h1, h2]
  · intro op o msg h1 h2 h3
    simp only [findMediaPart, h1, h2]
    rw [List.find?_eq_none]
    intro p hp
    simp [h3 p hp]
  · intro venv input fuel op0 op evs hsub hpoll herr hfind
    simp only [videoGenTask, hsub, hpoll, herr, hfind]

/-- Witness for C6: a terminal operation with no error and no output at
all makes the video task fail with the protocol-violation message. -/
theorem missing_media_protocol_error_c6_witness :
    videoGenTask venvBare reqSunset 0 =
      some (Except.error "Failed to find the generated video in the operation output.",
        [VEvent.submitCall]) :=
  missing_media_protocol_error_c6.2.2.2 venvBare reqSunset 0 opDoneBare opDoneBare []
    rfl rfl rfl rfl

end PressVideo
